import Mathlib

/-!
Verification of the TailorTalk calendar adapter (`backend/google_calendar.py`)
against its specification. The adapter's five operations are embedded
shallowly: Python datetimes become wall-clock seconds plus an optional UTC
offset, the remote Google Calendar service becomes an explicit interface
record over an abstract state type, and exceptions become `Except` errors.
-/

namespace TailorTalk

/-- Kind of a Python exception, carried as its message text. -/
abbrev PyExn := String

/-- UTC offset, in seconds, of the configured default zone
(`config.py`: `TIMEZONE` defaults to "Asia/Kolkata", UTC+05:30, a
fixed-offset zone without DST, so a single integer offset is faithful). -/
def tzOffset : Int := 19800

/-- Name of the configured default zone (`config.py`: `TIMEZONE`). -/
def TIMEZONE : String := "Asia/Kolkata"

/-- The configured calendar identifier (`config.py`: `CALENDAR_ID`), an
opaque environment-supplied string; its value never matters to the logic. -/
def CALENDAR_ID : String := "CALENDAR_ID"

/-- A Python `datetime`: wall-clock seconds in its own zone, plus the zone's
UTC offset in seconds when timezone-aware (`tzinfo = some off`); `none`
means timezone-naive. -/
structure PyDatetime where
  wall : Int
  tzinfo : Option Int
deriving DecidableEq, Repr

/-- The absolute instant (seconds relative to the UTC epoch) denoted by an
aware datetime. Only meaningful when `tzinfo` is present. -/
def PyDatetime.instant (d : PyDatetime) : Int :=
  d.wall - d.tzinfo.getD 0

/-- Whether a datetime is timezone-aware. -/
def PyDatetime.isAware (d : PyDatetime) : Bool :=
  d.tzinfo.isSome

/-- `datetime + timedelta(seconds = k)`: shifts the wall clock, keeps the
zone, so the denoted instant shifts by `k` as well. -/
def PyDatetime.addSec (d : PyDatetime) (k : Int) : PyDatetime :=
  { d with wall := d.wall + k }

/-- The `if x.tzinfo is None: x = tz.localize(x)` pattern used by
`create_event`, `update_event_time` and `get_event_id_by_start_time`:
a naive datetime is interpreted in the configured default zone (wall clock
kept, offset attached); an aware one is returned unchanged. -/
def coerceAware (d : PyDatetime) : PyDatetime :=
  match d.tzinfo with
  | none => { wall := d.wall, tzinfo := some tzOffset }
  | some _ => d

/-- Python's `datetime.astimezone(target)`: a naive datetime is presumed to
be in the process-local (system) zone, whose offset is `sysOff`, and then
converted to the target zone; an aware one is converted from its own zone.
Conversion preserves the denoted instant. -/
def astimezone (sysOff targetOff : Int) (d : PyDatetime) : PyDatetime :=
  match d.tzinfo with
  | none => { wall := d.wall - sysOff + targetOff, tzinfo := some targetOff }
  | some o => { wall := d.wall - o + targetOff, tzinfo := some targetOff }

/-- An ISO datetime string received from the remote, represented by its
parse behaviour: `iso d` is a string `datetime.fromisoformat` parses
directly to `d`; `isoZ w` carries a trailing "Z" suffix, which
`fromisoformat` rejects (ValueError) and the fallback
`fromisoformat(raw.replace("Z", "+00:00"))` reads as UTC wall clock `w`.
Per the external contract, all exchanged times are valid ISO-8601. -/
inductive RawDT where
  | iso (d : PyDatetime)
  | isoZ (wall : Int)
deriving DecidableEq, Repr

/-- The `try: fromisoformat(raw) / except ValueError:
fromisoformat(raw.replace("Z", "+00:00"))` parse of a raw start string. -/
def parseRaw : RawDT → PyDatetime
  | .iso d => d
  | .isoZ w => { wall := w, tzinfo := some 0 }

/-- The "start" / "end" sub-dict of a calendar event resource: an optional
"dateTime" field, an optional all-day "date" field, an optional "timeZone"
label. -/
structure SDict where
  dateTime : Option RawDT
  date : Option RawDT
  timeZone : Option String
deriving DecidableEq, Repr

/-- A full event resource, as fetched from / submitted to the remote.
`rest` stands in for every other Google event field (status, attendees,
reminders, ...), carried through verbatim as opaque key-value pairs. -/
structure EventObj where
  id : String
  summary : String
  description : String
  start : SDict
  «end» : SDict
  rest : List (String × String)
deriving DecidableEq, Repr

/-- An item of an `events().list` response, as read by the resolver: its id
and its optional "start" dict (`event.get("start", {})`). -/
structure GEvent where
  id : String
  start : Option SDict
deriving DecidableEq, Repr

/-- The body of a `freebusy().query` request. -/
structure FBBody where
  timeMin : PyDatetime
  timeMax : PyDatetime
  timeZone : String
  calendarId : String
deriving DecidableEq, Repr

/-- The body of an `events().insert` request. -/
structure EventBody where
  summary : String
  description : String
  start : SDict
  «end» : SDict
deriving DecidableEq, Repr

/-- The parameters of an `events().list` request. -/
structure ListParams where
  calendarId : String
  timeMin : PyDatetime
  timeMax : PyDatetime
  singleEvents : Bool
  timeZone : String
deriving DecidableEq, Repr

/-- A busy interval reported by the free/busy endpoint. -/
abbrev Busy := PyDatetime × PyDatetime

/-- The remote Google Calendar service (`self.SERVICE`), as the adapter
uses it: one callback per remote endpoint, over an abstract remote state
`σ`; a call either returns a value (mutating calls return the new state)
or raises. -/
structure CalRemote (σ : Type) where
  freebusy : σ → FBBody → Except PyExn (List Busy)
  insert : σ → EventBody → Except PyExn (EventObj × σ)
  get : σ → String → Except PyExn EventObj
  update : σ → String → EventObj → Except PyExn σ
  delete : σ → String → Except PyExn σ
  listEvents : σ → ListParams → Except PyExn (List GEvent)

/-- The free/busy request body built by `is_free_on_date`: the naive day
boundaries 00:00 and 23:59 (`dayStart` is the naive wall-clock second of
the date's midnight) are passed through `.astimezone(pytz.timezone(TIMEZONE))`,
which interprets them in the system zone `sysOff` and converts to the
configured zone. -/
def freebusyBody (sysOff : Int) (dayStart : Int) : FBBody :=
  let start := astimezone sysOff tzOffset { wall := dayStart, tzinfo := none }
  let stop := astimezone sysOff tzOffset { wall := dayStart + 86340, tzinfo := none }
  { timeMin := start, timeMax := stop, timeZone := TIMEZONE, calendarId := CALENDAR_ID }

/-- `GoogleCalendar.is_free_on_date`: queries free/busy over the day range
and returns whether zero busy slots were reported. Note: the remote call is
not wrapped in try/except, so a remote exception propagates. -/
def is_free_on_date {σ : Type} (R : CalRemote σ) (s : σ) (sysOff : Int)
    (dayStart : Int) : Except PyExn Bool :=
  match R.freebusy s (freebusyBody sysOff dayStart) with
  | .error ex => .error ex
  | .ok busy => .ok (busy.length == 0)

/-- The insert body built by `create_event`: naive start/end are localized
to the configured zone, serialized with an explicit "timeZone" label. -/
def createBody (title : String) (start_time end_time : PyDatetime)
    (description : Option String) : EventBody :=
  let st := coerceAware start_time
  let et := coerceAware end_time
  { summary := title
    description := description.getD ""
    start := { dateTime := some (.iso st), date := none, timeZone := some TIMEZONE }
    «end» := { dateTime := some (.iso et), date := none, timeZone := some TIMEZONE } }

/-- `GoogleCalendar.create_event`: inserts the event body and returns the
remote-assigned id. The insert call is not wrapped in try/except, so a
remote exception propagates. -/
def create_event {σ : Type} (R : CalRemote σ) (s : σ) (title : String)
    (start_time end_time : PyDatetime) (description : Option String) :
    Except PyExn (String × σ) :=
  match R.insert s (createBody title start_time end_time description) with
  | .error ex => .error ex
  | .ok (created, s2) => .ok (created.id, s2)

/-- The in-place mutation `event["start"]["dateTime"] = ns.isoformat();
event["end"]["dateTime"] = ne.isoformat()` on the fetched event: only the
two dateTime fields are overwritten, everything else is kept. (`ns`/`ne`
are already aware here; `isoformat` of an aware datetime is a directly
parseable ISO string, hence `RawDT.iso`.) -/
def updatedEvent (event : EventObj) (ns ne : PyDatetime) : EventObj :=
  { event with
      start := { event.start with dateTime := some (.iso ns) }
      «end» := { event.«end» with dateTime := some (.iso ne) } }

/-- `GoogleCalendar.update_event_time`: localize naive inputs, fetch the
event by id (returning False on any exception), overwrite its start/end
dateTime fields, submit the update (True on success, False on any
exception). On a failure the remote state is the one the failing call left
(`s`, since a failing call mutates nothing). -/
def update_event_time {σ : Type} (R : CalRemote σ) (s : σ) (event_id : String)
    (new_start_time new_end_time : PyDatetime) : Except PyExn (Bool × σ) :=
  let ns := coerceAware new_start_time
  let ne := coerceAware new_end_time
  match R.get s event_id with
  | .error _ => .ok (false, s)
  | .ok event =>
    match R.update s event_id (updatedEvent event ns ne) with
    | .ok s2 => .ok (true, s2)
    | .error _ => .ok (false, s)

/-- `GoogleCalendar.cancel_event`: delete by id; True on success, False on
any exception. -/
def cancel_event {σ : Type} (R : CalRemote σ) (s : σ) (event_id : String) :
    Except PyExn (Bool × σ) :=
  match R.delete s event_id with
  | .ok s2 => .ok (true, s2)
  | .error _ => .ok (false, s)

/-- The `events().list` parameters built by `get_event_id_by_start_time`
from the (already localized) target `st`: the window
[st − window_minutes, st + window_minutes], single-event expansion on. -/
def listParams (st : PyDatetime) (window_minutes : Int) : ListParams :=
  { calendarId := CALENDAR_ID
    timeMin := st.addSec (-(window_minutes * 60))
    timeMax := st.addSec (window_minutes * 60)
    singleEvents := true
    timeZone := TIMEZONE }

/-- `event.get("start", {}).get("dateTime") or event.get("start", {}).get("date")`:
the raw start string of a listed item, preferring the dateTime field and
falling back to the all-day date field; absent when the item has neither. -/
def rawStart (e : GEvent) : Option RawDT :=
  match e.start with
  | none => none
  | some sd => sd.dateTime.orElse (fun _ => sd.date)

/-- A candidate's start as compared by the resolver: parse the raw string
(with the Z-suffix fallback) and localize to the configured zone if naive. -/
def normStart (raw : RawDT) : PyDatetime :=
  coerceAware (parseRaw raw)

/-- The linear scan of `get_event_id_by_start_time` over the listed items:
skip items without a start, return the id of the first item whose start
differs from the (localized) target `st` by at most `w * 60` seconds. -/
def scanItems (st : PyDatetime) (w : Int) : List GEvent → Option String
  | [] => none
  | e :: restItems =>
    match rawStart e with
    | none => scanItems st w restItems
    | some raw =>
      if |(normStart raw).instant - st.instant| ≤ w * 60 then some e.id
      else scanItems st w restItems

/-- `GoogleCalendar.get_event_id_by_start_time`: localize the naive target,
list events in [target − window, target + window], scan them in listing
order for the first within-window start. The list call is not wrapped in
try/except, so a remote exception propagates. -/
def get_event_id_by_start_time {σ : Type} (R : CalRemote σ) (s : σ)
    (start_time : PyDatetime) (window_minutes : Int := 60) :
    Except PyExn (Option String) :=
  let st := coerceAware start_time
  match R.listEvents s (listParams st window_minutes) with
  | .error ex => .error ex
  | .ok items => .ok (scanItems st window_minutes items)

/-- Equality of `Except` results is decidable when it is for both
components. -/
instance {ε α : Type} [DecidableEq ε] [DecidableEq α] : DecidableEq (Except ε α) := fun x y =>
  match x, y with
  | .error e, .error f =>
    if h : e = f then .isTrue (by rw [h]) else .isFalse (fun hh => h (Except.error.inj hh))
  | .error _, .ok _ => .isFalse (fun hh => Except.noConfusion hh)
  | .ok _, .error _ => .isFalse (fun hh => Except.noConfusion hh)
  | .ok a, .ok b =>
    if h : a = b then .isTrue (by rw [h]) else .isFalse (fun hh => h (Except.ok.inj hh))

/-- A remote on which every call raises `ex`. -/
def failRemote (ex : PyExn) : CalRemote Unit :=
  { freebusy := fun _ _ => .error ex
    insert := fun _ _ => .error ex
    get := fun _ _ => .error ex
    update := fun _ _ _ => .error ex
    delete := fun _ _ => .error ex
    listEvents := fun _ _ => .error ex }

/-- A remote on which fetching any id yields `ev` and every other call
raises `ex`. -/
def failUpdRemote (ev : EventObj) (ex : PyExn) : CalRemote Unit :=
  { failRemote ex with get := fun _ _ => .ok ev }

/-- A remote whose fetch yields `ev` and whose update call records the
submitted (id, body) pair in the state, to observe exactly what the
adapter submits. -/
def recordRemote (ev : EventObj) : CalRemote (Option (String × EventObj)) :=
  { freebusy := fun _ _ => .error "unexpected"
    insert := fun _ _ => .error "unexpected"
    get := fun _ _ => .ok ev
    update := fun _ i b => .ok (some (i, b))
    delete := fun _ _ => .error "unexpected"
    listEvents := fun _ _ => .ok [] }

/-- A remote whose free/busy query reports the fixed busy list `busy` and
whose event listing returns the fixed item list `items`. -/
def constRemote (busy : List Busy) (items : List GEvent) : CalRemote Unit :=
  { freebusy := fun _ _ => .ok busy
    insert := fun _ _ => .error "unexpected"
    get := fun _ _ => .error "unexpected"
    update := fun _ _ _ => .error "unexpected"
    delete := fun _ _ => .error "unexpected"
    listEvents := fun _ _ => .ok items }

/-- Within-window test written from the spec's words, for comparison with
the code's scan: a listed candidate matches when its extracted start
(date-time field preferred, all-day date as fallback, default-zone
qualified if naive) differs from the target by at most `w * 60` seconds;
an item with no extractable start never matches. -/
def candWithin (t : PyDatetime) (w : Int) (e : GEvent) : Bool :=
  match rawStart e with
  | none => false
  | some raw => decide (|(normStart raw).instant - (coerceAware t).instant| ≤ w * 60)

/-- First-match resolution written from the spec's words, for comparison
with the code: the id of the first listed item within the window, absent
when there is none. -/
def resolveSpec (items : List GEvent) (t : PyDatetime) (w : Int) : Option String :=
  (items.find? (candWithin t w)).map GEvent.id

/-- State of the reference remote: a fresh-id counter and the stored
events in insertion order. -/
structure ModelState where
  seq : Nat
  events : List EventObj
deriving DecidableEq, Repr

/-- Start instant of a stored event (its dateTime field; events stored by
the reference remote always carry one). -/
def storedStart (e : EventObj) : Int :=
  match e.start.dateTime with
  | some raw => (parseRaw raw).instant
  | none => 0

/-- End instant of a stored event. -/
def storedEnd (e : EventObj) : Int :=
  match e.«end».dateTime with
  | some raw => (parseRaw raw).instant
  | none => 0

/-- A stored event as an `events().list` item. -/
def toListed (e : EventObj) : GEvent :=
  { id := e.id, start := some e.start }

/-- Modelled from the spec (§6: the remote calendar service is an external
collaborator with a fixed contract). A reference remote over explicit
state: insert assigns a fresh id and appends the body; list returns, in
storage order, the stored events overlapping the requested range (end
after timeMin, start before timeMax — Google's list semantics); free/busy
reports the overlapping events as busy intervals; get, update and delete
act by id and raise on an unknown id. -/
def gcal : CalRemote ModelState :=
  { freebusy := fun st b =>
      .ok ((st.events.filter fun e =>
        decide (b.timeMin.instant < storedEnd e) && decide (storedStart e < b.timeMax.instant)).map
        fun e => (({ wall := storedStart e, tzinfo := some 0 } : PyDatetime),
                  ({ wall := storedEnd e, tzinfo := some 0 } : PyDatetime)))
    insert := fun st body =>
      let ev : EventObj :=
        { id := "evt" ++ toString st.seq
          summary := body.summary
          description := body.description
          start := body.start
          «end» := body.«end»
          rest := [] }
      .ok (ev, { seq := st.seq + 1, events := st.events ++ [ev] })
    get := fun st i =>
      match st.events.find? (fun e => e.id == i) with
      | some e => .ok e
      | none => .error "404"
    update := fun st i b =>
      if st.events.any (fun e => e.id == i) then
        .ok { st with events := st.events.map fun e => if e.id == i then b else e }
      else .error "404"
    delete := fun st i =>
      if st.events.any (fun e => e.id == i) then
        .ok { st with events := st.events.filter fun e => !(e.id == i) }
      else .error "404"
    listEvents := fun st p =>
      .ok ((st.events.filter fun e =>
        decide (p.timeMin.instant < storedEnd e) && decide (storedStart e < p.timeMax.instant)).map
        toListed) }

/-- The empty calendar. -/
def emptyCal : ModelState := { seq := 0, events := [] }

/-- A remote whose fetch always raises and whose update call increments a
counter state, to observe whether an update call was ever issued. -/
def countRemote (ex : PyExn) : CalRemote Nat :=
  { freebusy := fun _ _ => .error ex
    insert := fun _ _ => .error ex
    get := fun _ _ => .error ex
    update := fun n _ _ => .ok (n + 1)
    delete := fun _ _ => .error ex
    listEvents := fun _ _ => .error ex }

/-- A sample event resource for concrete instantiations. -/
def sampleEv : EventObj :=
  { id := "evt0"
    summary := "standup"
    description := "daily"
    start := { dateTime := some (.iso { wall := 1000, tzinfo := some 19800 })
               date := none, timeZone := some TIMEZONE }
    «end» := { dateTime := some (.iso { wall := 4600, tzinfo := some 19800 })
               date := none, timeZone := some TIMEZONE }
    rest := [("status", "confirmed")] }

/-- A sample naive datetime for concrete instantiations. -/
def d0 : PyDatetime := { wall := 0, tzinfo := none }

/-- A sample listed item whose start is exactly one hour after instant 0. -/
def evAtHour : GEvent :=
  { id := "e1"
    start := some { dateTime := some (.iso { wall := 3600, tzinfo := some 0 })
                    date := none, timeZone := none } }

/-- A sample listed item with neither a date-time nor an all-day date. -/
def evNoStart : GEvent := { id := "bad", start := some { dateTime := none, date := none, timeZone := none } }

/-! ## Helper lemmas -/

/-- Localization is idempotent: an already aware datetime is untouched. -/
theorem coerce_idem (d : PyDatetime) : coerceAware (coerceAware d) = coerceAware d := by
  cases d with
  | mk wall tz => cases tz <;> rfl

/-- Shifting a datetime shifts its instant by the same amount. -/
theorem addSec_instant (d : PyDatetime) (k : Int) :
    (d.addSec k).instant = d.instant + k := by
  simp [PyDatetime.addSec, PyDatetime.instant]
  ring

/-- The code's scan agrees with the spec-side first-match search. -/
theorem scan_eq_find (t : PyDatetime) (w : Int) (items : List GEvent) :
    scanItems (coerceAware t) w items = resolveSpec items t w := by
  induction items with
  | nil => rfl
  | cons e tl ih =>
    unfold scanItems resolveSpec
    unfold resolveSpec at ih
    cases h : rawStart e with
    | none =>
      have hc : candWithin t w e = false := by simp [candWithin, h]
      simp only [h, List.find?, hc]
      exact ih
    | some raw =>
      by_cases hle : |(normStart raw).instant - (coerceAware t).instant| ≤ w * 60
      · have hc : candWithin t w e = true := by simp [candWithin, h, hle]
        simp only [h, List.find?, hc, hle, if_true]
        rfl
      · have hc : candWithin t w e = false := by simp only [candWithin, h, decide_eq_false_iff_not]; exact hle
        simp only [h, List.find?, hc, hle, if_false]
        exact ih

/-- Claim C1: for every target instant and window, the resolver returns
exactly the first-match result over the items the remote listing
enumerates: the id of the first item, in listing order, whose extracted
start (date-time preferred, all-day date fallback, default-zone qualified
if naive) differs from the target by at most window*60 seconds; it is
first-match, not best-match, and it returns `none` when no listed item
satisfies the delta check, in particular on an empty listing. -/
theorem thm_C1_resolver_first_match {σ : Type} (R : CalRemote σ) (s : σ)
    (t : PyDatetime) (w : Int) (items : List GEvent)
    (h : R.listEvents s (listParams (coerceAware t) w) = .ok items) :
    get_event_id_by_start_time R s t w = .ok (resolveSpec items t w) := by
  simp only [get_event_id_by_start_time]
  rw [h]
  exact congrArg Except.ok (scan_eq_find t w items)

/-- Witness for C1 at a concrete listing: two candidates both within the
window; the first in listing order is returned even though the second is
nearer to the target. -/
theorem thm_C1_witness :
    get_event_id_by_start_time
      (constRemote [] [evAtHour, { id := "nearer", start := some { dateTime := some (.iso { wall := 60, tzinfo := some 0 }), date := none, timeZone := none } }])
      () { wall := 0, tzinfo := some 0 } 60 =
    .ok (resolveSpec [evAtHour, { id := "nearer", start := some { dateTime := some (.iso { wall := 60, tzinfo := some 0 }), date := none, timeZone := none } }] { wall := 0, tzinfo := some 0 } 60) ∧
    resolveSpec [evAtHour, { id := "nearer", start := some { dateTime := some (.iso { wall := 60, tzinfo := some 0 }), date := none, timeZone := none } }] { wall := 0, tzinfo := some 0 } 60 = some "e1" := by
  constructor
  · exact thm_C1_resolver_first_match _ _ _ _ _ rfl
  · decide

/-- A naive datetime becomes aware under localization. -/
theorem coerce_isAware (d : PyDatetime) : (coerceAware d).isAware = true := by
  cases d with
  | mk wall tz => cases tz <;> rfl

/-- Localizing a naive datetime interprets its wall clock in the configured
default zone. -/
theorem coerce_naive_instant (d : PyDatetime) (h : d.tzinfo = none) :
    (coerceAware d).instant = d.wall - tzOffset := by
  cases d with
  | mk wall tz =>
    cases tz with
    | none => rfl
    | some o => exact absurd h (by simp)

/-- Claim C2 counterexample: is_free_on_date does not catch a remote-side
failure - with a raising free/busy endpoint it propagates the exception
instead of returning false. -/
theorem cex_C2_is_free_raises :
    is_free_on_date (failRemote "network down") () 0 0 = .error "network down" ∧
    is_free_on_date (failRemote "network down") () 0 0 ≠ .ok false := by
  constructor
  · rfl
  · decide

/-- Claim C2 (amended): among the boolean-returning operations,
update_event_time and cancel_event never raise outward for a remote-side
failure - an exception of the fetch, the update or the delete call is
caught and false returned - while is_free_on_date catches nothing: an
exception of the free/busy call propagates to the caller. -/
theorem thm_C2_boolean_error_contract {σ : Type} (R : CalRemote σ) (s : σ)
    (i : String) (ns ne : PyDatetime) (ex : PyExn) (sysOff dayStart : Int) :
    (R.get s i = .error ex → update_event_time R s i ns ne = .ok (false, s)) ∧
    (∀ ev, R.get s i = .ok ev →
      R.update s i (updatedEvent ev (coerceAware ns) (coerceAware ne)) = .error ex →
      update_event_time R s i ns ne = .ok (false, s)) ∧
    (R.delete s i = .error ex → cancel_event R s i = .ok (false, s)) ∧
    (R.freebusy s (freebusyBody sysOff dayStart) = .error ex →
      is_free_on_date R s sysOff dayStart = .error ex) := by
  refine ⟨fun h => ?_, fun ev h1 h2 => ?_, fun h => ?_, fun h => ?_⟩
  · simp only [update_event_time]
    rw [h]
  · simp only [update_event_time, h1, h2]
  · simp only [cancel_event]
    rw [h]
  · simp only [is_free_on_date]
    rw [h]

/-- Witness for C2 at concrete remotes: failing fetch, failing update and
failing delete yield false; a failing free/busy raises. -/
theorem thm_C2_witness :
    update_event_time (failRemote "boom") () "x" d0 d0 = .ok (false, ()) ∧
    update_event_time (failUpdRemote sampleEv "boom") () "x" d0 d0 = .ok (false, ()) ∧
    cancel_event (failRemote "boom") () "x" = .ok (false, ()) ∧
    is_free_on_date (failRemote "boom") () 0 0 = .error "boom" := by
  refine ⟨?_, ?_, ?_, ?_⟩
  · exact (thm_C2_boolean_error_contract (failRemote "boom") () "x" d0 d0 "boom" 0 0).1 rfl
  · exact (thm_C2_boolean_error_contract (failUpdRemote sampleEv "boom") () "x" d0 d0 "boom" 0 0).2.1 sampleEv rfl rfl
  · exact (thm_C2_boolean_error_contract (failRemote "boom") () "x" d0 d0 "boom" 0 0).2.2.1 rfl
  · exact (thm_C2_boolean_error_contract (failRemote "boom") () "x" d0 d0 "boom" 0 0).2.2.2 rfl

/-- Claim C3 counterexample: with the process in UTC (system offset 0) and
the date's naive midnight at wall second 0, the built range starts at the
instant of midnight in the system zone (0), not at the instant of the same
wall clock interpreted in the configured +05:30 zone (-19800): the range
is not the one of the configured default timezone. -/
theorem cex_C3_range_system_zone :
    (freebusyBody 0 0).timeMin.instant = 0 ∧
    (coerceAware { wall := 0, tzinfo := none }).instant = -19800 ∧
    (freebusyBody 0 0).timeMin.instant ≠ (coerceAware { wall := 0, tzinfo := none }).instant := by
  decide

/-- Claim C3 (amended): is_free_on_date builds the full-day range from
00:00 to 23:59 of the given date interpreted in the process-local system
zone (converted to, and labelled with, the configured zone), queries the
free/busy endpoint over that range, and returns true iff the remote
reports zero busy intervals for it. -/
theorem thm_C3_availability {σ : Type} (R : CalRemote σ) (s : σ)
    (sysOff dayStart : Int) :
    (freebusyBody sysOff dayStart).timeMin.instant = dayStart - sysOff ∧
    (freebusyBody sysOff dayStart).timeMax.instant = dayStart + 86340 - sysOff ∧
    (freebusyBody sysOff dayStart).timeMin.tzinfo = some tzOffset ∧
    (freebusyBody sysOff dayStart).timeMax.tzinfo = some tzOffset ∧
    (∀ busy, R.freebusy s (freebusyBody sysOff dayStart) = .ok busy →
      (is_free_on_date R s sysOff dayStart = .ok true ↔ busy = [])) := by
  refine ⟨?_, ?_, rfl, rfl, fun busy h => ?_⟩
  · simp [freebusyBody, astimezone, PyDatetime.instant]
  · simp [freebusyBody, astimezone, PyDatetime.instant]
  · simp only [is_free_on_date]
    rw [h]
    simp [List.length_eq_zero]

/-- Witness for C3: an empty busy report yields true. -/
theorem thm_C3_witness :
    (is_free_on_date (constRemote [] []) () 0 0 = .ok true ↔ ([] : List Busy) = []) ∧
    (freebusyBody 0 0).timeMin.instant = 0 - 0 :=
  ⟨(thm_C3_availability (constRemote [] []) () 0 0).2.2.2.2 [] rfl,
   (thm_C3_availability (constRemote [] []) () 0 0).1⟩

/-- Claim C4 counterexample: in is_free_on_date the naive day-boundary
instants are not interpreted in the configured default timezone - a naive
midnight is presumed to be in the system zone (here UTC) and merely
converted, so the request carries instant 0 rather than -19800, the
configured-zone interpretation of the same naive wall clock. -/
theorem cex_C4_naive_interpretation :
    (freebusyBody 0 0).timeMin ≠ coerceAware { wall := 0, tzinfo := none } ∧
    (freebusyBody 0 0).timeMin.instant ≠ (coerceAware { wall := 0, tzinfo := none }).instant := by
  decide

/-- Claim C4 (amended): every timestamp placed in a remote request body or
compared by the resolver is timezone-qualified; the naive datetime inputs
of create_event and update_event_time, the resolver's naive target and
naive parsed event starts are interpreted in the configured default zone,
while the naive day boundaries of is_free_on_date are interpreted in the
process-local system zone and only converted to the configured zone. -/
theorem thm_C4_timezone_invariant (sysOff dayStart : Int) (title : String)
    (S E t ns ne : PyDatetime) (d : Option String) (ev : EventObj)
    (raw : RawDT) (w : Int) :
    ((freebusyBody sysOff dayStart).timeMin.isAware = true ∧
     (freebusyBody sysOff dayStart).timeMax.isAware = true ∧
     (freebusyBody sysOff dayStart).timeMin.instant = dayStart - sysOff) ∧
    ((createBody title S E d).start.dateTime = some (.iso (coerceAware S)) ∧
     (createBody title S E d).«end».dateTime = some (.iso (coerceAware E)) ∧
     (coerceAware S).isAware = true ∧ (coerceAware E).isAware = true) ∧
    ((updatedEvent ev (coerceAware ns) (coerceAware ne)).start.dateTime =
        some (.iso (coerceAware ns)) ∧
     (updatedEvent ev (coerceAware ns) (coerceAware ne)).«end».dateTime =
        some (.iso (coerceAware ne)) ∧
     (coerceAware ns).isAware = true ∧ (coerceAware ne).isAware = true) ∧
    ((listParams (coerceAware t) w).timeMin.isAware = true ∧
     (listParams (coerceAware t) w).timeMax.isAware = true ∧
     (normStart raw).isAware = true ∧ (coerceAware t).isAware = true) ∧
    (S.tzinfo = none → (coerceAware S).instant = S.wall - tzOffset) ∧
    (t.tzinfo = none → (coerceAware t).instant = t.wall - tzOffset) := by
  refine ⟨⟨rfl, rfl, ?_⟩, ⟨rfl, rfl, coerce_isAware S, coerce_isAware E⟩,
    ⟨rfl, rfl, coerce_isAware ns, coerce_isAware ne⟩,
    ⟨?_, ?_, ?_, coerce_isAware t⟩,
    coerce_naive_instant S, coerce_naive_instant t⟩
  · simp [freebusyBody, astimezone, PyDatetime.instant]
  · simp [listParams, PyDatetime.addSec, PyDatetime.isAware]
    have := coerce_isAware t
    simp [PyDatetime.isAware] at this
    exact this
  · simp [listParams, PyDatetime.addSec, PyDatetime.isAware]
    have := coerce_isAware t
    simp [PyDatetime.isAware] at this
    exact this
  · cases raw with
    | iso dd => exact coerce_isAware dd
    | isoZ ww => rfl

/-- Witness for C4 at a concrete naive input. -/
theorem thm_C4_witness :
    (coerceAware d0).instant = d0.wall - tzOffset ∧
    (freebusyBody 0 0).timeMin.isAware = true :=
  ⟨(thm_C4_timezone_invariant 0 0 "t" d0 d0 d0 d0 d0 none sampleEv (.isoZ 0) 60).2.2.2.2.1 rfl,
   (thm_C4_timezone_invariant 0 0 "t" d0 d0 d0 d0 d0 none sampleEv (.isoZ 0) 60).1.1⟩

/-- Claim C6: when the fetch of the event id fails, update_event_time
returns false without raising, and this holds for every behaviour of the
remote update endpoint with the remote state handed back unchanged: no
update call is issued. -/
theorem thm_C6_update_fetch_fail {σ : Type} (R : CalRemote σ) (s : σ)
    (i : String) (ns ne : PyDatetime) (ex : PyExn)
    (h : R.get s i = .error ex) :
    update_event_time R s i ns ne = .ok (false, s) := by
  simp only [update_event_time]
  rw [h]

/-- Witness for C6: a remote whose fetch raises and whose update increments
a counter - the result is false and the counter state is untouched. -/
theorem thm_C6_witness :
    update_event_time (countRemote "404") 0 "nonexistent" d0 d0 = .ok (false, 0) :=
  thm_C6_update_fetch_fail (countRemote "404") 0 "nonexistent" d0 d0 "404" rfl

/-- Claim C7: on a successful fetch the submitted update body differs from
the fetched event exactly in the start and end dateTime fields - id,
summary, description, all-day date fields, timeZone labels and every other
field are passed unchanged - the operation returns true when the update
call succeeds and false when either the fetch or the update raises. -/
theorem thm_C7_update_frame (ev : EventObj) (i : String)
    (ns ne : PyDatetime) (ex : PyExn) :
    (∃ b, update_event_time (recordRemote ev) none i ns ne = .ok (true, some (i, b)) ∧
      b.id = ev.id ∧ b.summary = ev.summary ∧ b.description = ev.description ∧
      b.rest = ev.rest ∧
      b.start.date = ev.start.date ∧ b.start.timeZone = ev.start.timeZone ∧
      b.«end».date = ev.«end».date ∧ b.«end».timeZone = ev.«end».timeZone ∧
      b.start.dateTime = some (.iso (coerceAware ns)) ∧
      b.«end».dateTime = some (.iso (coerceAware ne))) ∧
    update_event_time (failUpdRemote ev ex) () i ns ne = .ok (false, ()) ∧
    update_event_time (failRemote ex) () i ns ne = .ok (false, ()) := by
  refine ⟨⟨updatedEvent ev (coerceAware ns) (coerceAware ne),
    rfl, rfl, rfl, rfl, rfl, rfl, rfl, rfl, rfl, rfl, rfl⟩, rfl, rfl⟩

/-- Claim C8: remote errors are not caught in create_event or in
get_event_id_by_start_time - an exception of the insert call, and an
exception of the listing call, propagates to the caller unchanged. -/
theorem thm_C8_errors_propagate {σ : Type} (R : CalRemote σ) (s : σ)
    (title : String) (S E t : PyDatetime) (d : Option String) (w : Int)
    (ex : PyExn) :
    (R.insert s (createBody title S E d) = .error ex →
      create_event R s title S E d = .error ex) ∧
    (R.listEvents s (listParams (coerceAware t) w) = .error ex →
      get_event_id_by_start_time R s t w = .error ex) := by
  constructor
  · intro h
    simp only [create_event]
    rw [h]
  · intro h
    simp only [get_event_id_by_start_time]
    rw [h]

/-- Witness for C8: on an all-raising remote both operations raise. -/
theorem thm_C8_witness :
    create_event (failRemote "boom") () "m" d0 d0 none = .error "boom" ∧
    get_event_id_by_start_time (failRemote "boom") () d0 60 = .error "boom" :=
  ⟨(thm_C8_errors_propagate (failRemote "boom") () "m" d0 d0 d0 none 60 "boom").1 rfl,
   (thm_C8_errors_propagate (failRemote "boom") () "m" d0 d0 d0 none 60 "boom").2 rfl⟩

/-- Claim C9: the matching window is inclusive at its boundary - a listed
candidate whose start differs from the target by exactly window*60 seconds
is accepted, and when it is the first listed item its id is returned. -/
theorem thm_C9_boundary_inclusive {σ : Type} (R : CalRemote σ) (s : σ)
    (t : PyDatetime) (w : Int) (e : GEvent) (raw : RawDT)
    (items : List GEvent)
    (h : R.listEvents s (listParams (coerceAware t) w) = .ok (e :: items))
    (hraw : rawStart e = some raw)
    (hd : |(normStart raw).instant - (coerceAware t).instant| = w * 60) :
    get_event_id_by_start_time R s t w = .ok (some e.id) := by
  simp only [get_event_id_by_start_time]
  rw [h]
  simp only [scanItems, hraw, hd, le_refl, if_true]

/-- Witness for C9: an event starting exactly sixty minutes after the
target, with a sixty-minute window, is returned. -/
theorem thm_C9_witness :
    get_event_id_by_start_time (constRemote [] [evAtHour]) ()
      { wall := 0, tzinfo := some 0 } 60 = .ok (some "e1") :=
  thm_C9_boundary_inclusive (constRemote [] [evAtHour]) ()
    { wall := 0, tzinfo := some 0 } 60 evAtHour
    (.iso { wall := 3600, tzinfo := some 0 }) [] rfl rfl (by decide)

/-- Claim C10: a listed item whose start dict yields neither a date-time
nor an all-day date is skipped without error - resolution over a listing
headed by such an item equals resolution over the tail, and the head item
is simply passed over by the scan. -/
theorem thm_C10_skip_startless (t : PyDatetime) (w : Int) (e : GEvent)
    (items : List GEvent) (busy : List Busy)
    (hraw : rawStart e = none) :
    get_event_id_by_start_time (constRemote busy (e :: items)) () t w =
      get_event_id_by_start_time (constRemote busy items) () t w ∧
    get_event_id_by_start_time (constRemote busy (e :: items)) () t w =
      .ok (scanItems (coerceAware t) w items) := by
  constructor
  · simp only [get_event_id_by_start_time, constRemote, scanItems, hraw]
  · simp only [get_event_id_by_start_time, constRemote, scanItems, hraw]

/-- Witness for C10: a startless head item is skipped and the second item
is resolved. -/
theorem thm_C10_witness :
    get_event_id_by_start_time (constRemote [] [evNoStart, evAtHour]) ()
      { wall := 0, tzinfo := some 0 } 60 =
      get_event_id_by_start_time (constRemote [] [evAtHour]) ()
        { wall := 0, tzinfo := some 0 } 60 :=
  (thm_C10_skip_startless { wall := 0, tzinfo := some 0 } 60 evNoStart
    [evAtHour] [] rfl).1

/-- Claim C5: round-trip on the reference remote - creating an event on the
empty calendar with start S strictly before end E and then resolving by
start time S with a window of at least one minute returns exactly the
created id. -/
theorem thm_C5_roundtrip (title : String) (S E : PyDatetime)
    (d : Option String) (w : Int) (x : String) (s1 : ModelState)
    (hw : 1 ≤ w)
    (hse : (coerceAware S).instant < (coerceAware E).instant)
    (hc : create_event gcal emptyCal title S E d = .ok (x, s1)) :
    get_event_id_by_start_time gcal s1 S w = .ok (some x) := by
  simp only [create_event, gcal, emptyCal, createBody, Except.ok.injEq, Prod.mk.injEq] at hc
  obtain ⟨hx, hs⟩ := hc
  subst hx
  subst hs
  simp only [get_event_id_by_start_time, gcal, listParams]
  have h1 : (((coerceAware S).addSec (-(w * 60))).instant <
      (parseRaw (.iso (coerceAware E))).instant) := by
    rw [addSec_instant]
    simp only [parseRaw]
    omega
  have h2 : ((parseRaw (.iso (coerceAware S))).instant <
      ((coerceAware S).addSec (w * 60)).instant) := by
    rw [addSec_instant]
    simp only [parseRaw]
    omega
  simp only [storedStart, storedEnd, List.filter, h1, h2, decide_eq_true_eq,
    List.map, toListed, scanItems, rawStart, Option.orElse]
  simp only [scanItems, rawStart, Option.orElse, normStart, parseRaw, coerce_idem,
    sub_self, abs_zero]
  have h3 : (0 : Int) ≤ w * 60 := by omega
  simp [h3]

/-- Witness for C5: a concrete created event at wall second 1000 resolved
with a sixty-minute window. -/
theorem thm_C5_witness :
    get_event_id_by_start_time gcal
      { seq := 1,
        events := [{ id := "evt0", summary := "m", description := "",
                     start := { dateTime := some (.iso { wall := 1000, tzinfo := some 19800 }),
                                date := none, timeZone := some TIMEZONE },
                     «end» := { dateTime := some (.iso { wall := 4600, tzinfo := some 19800 }),
                                date := none, timeZone := some TIMEZONE },
                     rest := [] }] }
      { wall := 1000, tzinfo := none } 60 = .ok (some "evt0") :=
  thm_C5_roundtrip "m" { wall := 1000, tzinfo := none }
    { wall := 4600, tzinfo := none } none 60 "evt0" _
    (by decide) (by decide) (by decide)

end TailorTalk
